import Mathlib

/-!
Shallow embedding of the DirGen platform control plane and resilience layer,
translated from the repository sources:

* `src/mcp_host/main.py`                         — run state machine, approval /
  retry workflow, sandboxed filesystem gateway;
* `src/dirgen_core/llm_services/main_llm_service.py` — provider failover engine
  with response cache;
* `src/dirgen_core/llm_services/gemini_key_rotator.py` — credential pool;
* `src/dirgen_core/llm_services/local_model_manager.py` — local backend
  lifecycle manager.

Machine time (`datetime.now()`) is modelled as an explicit natural-number
parameter measured in seconds; filesystem and Docker effects are modelled as
explicit environment records.  All state of `main.py` that the claims touch
(the `RUN_STATES`, `RETRY_STATES`, `APPROVAL_STATES` maps and the launched
subprocesses) is per-`run_id`, so the embedding keeps the state of a single
run; different run ids never interact in the source.
-/

namespace DirGen

/-! ## Run state machine (`src/mcp_host/main.py`) -/

/-- The `RunStatus` enum of `main.py` (16 values). -/
inductive RunStatus where
  | initial
  | requirementsProcessing
  | requirementsWaitingApproval
  | requirementsApproved
  | requirementsRejected
  | designProcessing
  | designWaitingApproval
  | designApproved
  | designRejected
  | validationProcessing
  | validationPassed
  | validationFailed
  | executionProcessing
  | executionCompleted
  | executionFailed
  | cancelled
  deriving DecidableEq, Repr

/-- One entry of the `RUN_STATES` map: the fields that influence behaviour
(`status` and `retry_count`; timestamps and the free-form metadata map are
write-only). -/
structure RunEntry where
  status : RunStatus
  retryCount : Nat
  deriving DecidableEq, Repr

/-- One entry of the `RETRY_STATES` map. -/
structure RetryState where
  retryCount : Nat
  feedbackHistory : List String
  deriving DecidableEq, Repr

/-- A subprocess launch performed by the orchestrator (the `subprocess.Popen`
calls of `run_phase_0_requirements`, `run_phase_1_design`,
`run_quality_gate_1`), with the optional `--feedback` argument of the
planner launch. -/
inductive Launch where
  | requirements
  | planner (feedback : Option String)
  | validator
  deriving DecidableEq, Repr

/-- The per-run orchestrator state: the run's entries in the global maps
`RUN_STATES`, `RETRY_STATES` and `APPROVAL_STATES`, whether the file
`temp/{run_id}_pcce.yml` exists, the launches performed so far, and the
sequence of statuses passed to `set_run_status` (in call order). -/
structure Orch where
  run : Option RunEntry
  retry : Option RetryState
  approval : Option String
  pcceExists : Bool
  launched : List Launch
  trace : List RunStatus
  deriving DecidableEq, Repr

/-- `MAX_RETRIES` of `main.py`. -/
def MAX_RETRIES : Nat := 3

/-- `set_run_status`: initialises the run entry (status `INITIAL`,
`retry_count` 0) if absent, then overwrites the status; `retry_count` is
overwritten only when the caller put it in the metadata (modelled as the
`rc` argument).  The status is also recorded in the trace. -/
def setRunStatus (s : RunStatus) (rc : Option Nat) (o : Orch) : Orch :=
  let r := o.run.getD ⟨RunStatus.initial, 0⟩
  { o with run := some ⟨s, rc.getD r.retryCount⟩, trace := o.trace ++ [s] }

/-- `run_phase_0_requirements`: status `REQUIREMENTS_PROCESSING`, launch the
requirements agent. -/
def runPhase0Requirements (o : Orch) : Orch :=
  let o := setRunStatus .requirementsProcessing none o
  { o with launched := o.launched ++ [Launch.requirements] }

/-- `run_phase_1_design`: status `DESIGN_PROCESSING`, create the PCCE file if
it does not exist, launch the planner agent (with `--feedback` when given). -/
def runPhase1Design (feedback : Option String) (o : Orch) : Orch :=
  let o := setRunStatus .designProcessing none o
  { o with pcceExists := true, launched := o.launched ++ [Launch.planner feedback] }

/-- `run_quality_gate_1`: status `VALIDATION_PROCESSING`, create the PCCE file
if it does not exist, launch the validator agent. -/
def runQualityGate1 (o : Orch) : Orch :=
  let o := setRunStatus .validationProcessing none o
  { o with pcceExists := true, launched := o.launched ++ [Launch.validator] }

/-- `POST /v1/initiate_from_svad`: fresh run set to `INITIAL`, then phase 0
(the `asyncio.create_task` body, which the single-threaded event loop runs
next). -/
def initiateFromSvad (o : Orch) : Orch :=
  runPhase0Requirements (setRunStatus .initial none o)

/-- The feedback string built by `handle_validation_failure` when a retry is
re-launched: current attempt and reason, plus the joined prior reasons when
there are any (`hist` is the full `feedback_history` including the current
reason, as in the source at that point). -/
def mkFeedback (count : Nat) (msg : String) (hist : List String) : String :=
  let base := "Intento " ++ toString count ++ "/" ++ toString MAX_RETRIES
      ++ ". Error: " ++ msg
  if hist.length > 1 then
    base ++ " Errores anteriores: " ++ String.intercalate "; " hist.dropLast
  else base

/-- `handle_validation_failure`: increment the retry counter and append the
reason; at or below `MAX_RETRIES` re-enter `DESIGN_PROCESSING` and (when the
PCCE file exists) re-launch the planner with the enriched feedback; above it,
transition to `DESIGN_REJECTED` and discard the retry record. -/
def handleValidationFailure (msg : String) (o : Orch) : Orch :=
  let rs := o.retry.getD ⟨0, []⟩
  let rs' : RetryState := ⟨rs.retryCount + 1, rs.feedbackHistory ++ [msg]⟩
  let o := { o with retry := some rs' }
  if rs'.retryCount ≤ MAX_RETRIES then
    let fb := mkFeedback rs'.retryCount msg rs'.feedbackHistory
    let o := setRunStatus .designProcessing (some rs'.retryCount) o
    if o.pcceExists then runPhase1Design (some fb) o else o
  else
    let o := setRunStatus .designRejected (some MAX_RETRIES) o
    { o with retry := none }

/-- `POST /v1/agent/{run_id}/task_complete`: dispatch on the free-form `role`
and `status` strings of the report body (`status` defaults to `"success"`
when absent, `reason` to `"Tarea incompleta"` in the incomplete branch). -/
def agentTaskComplete (role status reason : Option String) (o : Orch) : Orch :=
  let st := status.getD "success"
  if role = some "requirements" then
    if st = "failed" then setRunStatus .requirementsRejected none o
    else
      let o := setRunStatus .requirementsWaitingApproval none o
      { o with approval := some "waiting_architecture_plan_approval" }
  else if role = some "planner" then
    if st = "impossible" then
      let o := setRunStatus .designRejected none o
      { o with retry := none }
    else if st = "failed" then setRunStatus .designRejected none o
    else if st = "incomplete" then
      handleValidationFailure (reason.getD "Tarea incompleta") o
    else
      let o := setRunStatus .designWaitingApproval none o
      { o with approval := some "waiting_execution_approval" }
  else o

/-- `POST /v1/agent/{run_id}/validation_result`: on success clear the retry
record and pass validation; on failure record `VALIDATION_FAILED` and run the
retry algorithm (`message` defaults to `"Error desconocido"`). -/
def validationResult (success : Bool) (message : Option String) (o : Orch) : Orch :=
  if success then
    let o := setRunStatus .validationPassed none o
    { o with retry := none }
  else
    let o := setRunStatus .validationFailed none o
    handleValidationFailure (message.getD "Error desconocido") o

/-- Outcome of `POST /v1/run/{run_id}/approve_plan` as seen by the caller. -/
inductive ApproveOutcome where
  /-- `HTTPException 400`: the run is not waiting for approval. -/
  | invalidState
  /-- `{"status": "error"}`: the PCCE file is missing. -/
  | pcceNotFound
  /-- Architecture plan approved, phase 1 started. -/
  | approvedArch
  /-- Execution plan approved, quality gate 1 started. -/
  | approvedExec
  /-- Plan rejected by the user. -/
  | rejected
  deriving DecidableEq, Repr

/-- `approve_plan`: reject with an invalid-state error unless the run's
`APPROVAL_STATES` entry is one of the two waiting values; on approval check
the PCCE file, set the `*Approved` status and start the next stage; on
rejection set the matching `*Rejected` status (or `CANCELLED` for an
unrecognised gate) and drop the approval entry. -/
def approvePlan (approved : Bool) (o : Orch) : ApproveOutcome × Orch :=
  let gate := o.approval.getD "none"
  if gate ≠ "waiting_architecture_plan_approval" ∧
      gate ≠ "waiting_execution_approval" then
    (.invalidState, o)
  else if approved then
    if !o.pcceExists then (.pcceNotFound, o)
    else if gate = "waiting_architecture_plan_approval" then
      let o := setRunStatus .requirementsApproved none o
      let o := { o with approval := some "architecture_plan_approved" }
      (.approvedArch, runPhase1Design none o)
    else
      let o := setRunStatus .designApproved none o
      let o := { o with approval := some "execution_approved" }
      (.approvedExec, runQualityGate1 o)
  else
    let o :=
      if gate = "waiting_architecture_plan_approval" then
        setRunStatus .requirementsRejected none o
      else if gate = "waiting_execution_approval" then
        setRunStatus .designRejected none o
      else setRunStatus .cancelled none o
    (.rejected, { o with approval := none })

/-- The control-plane operations of the claims: submit, the two worker report
endpoints, and approval. -/
inductive Op where
  | submit
  | taskComplete (role status reason : Option String)
  | valResult (success : Bool) (message : Option String)
  | approve (approved : Bool)
  deriving DecidableEq, Repr

/-- Apply one control-plane operation to a run's state. -/
def applyOp : Op → Orch → Orch
  | .submit, o => initiateFromSvad o
  | .taskComplete r s re, o => agentTaskComplete r s re o
  | .valResult ok m, o => validationResult ok m o
  | .approve a, o => (approvePlan a o).2

/-- Current status of a run (`INITIAL` if no entry exists yet, as
`set_run_status` would initialise it). -/
def currentStatus (o : Orch) : RunStatus :=
  (o.run.map RunEntry.status).getD .initial

/-- State of a run id that has never been seen by the orchestrator. -/
def emptyOrch : Orch :=
  { run := none, retry := none, approval := none, pcceExists := false,
    launched := [], trace := [] }

/-! ## The specified transition graph

The directed graph of spec §3/§4.1: the linear pipeline with its two approval
gates, terminal rejections, and the `DesignProcessing` retry cycle.  This
definition is taken from the specification's words (it is the comparison
object for the refinement claim about the state machine), not from the
source. -/

/-- Edge relation of the specified `RunState` transition graph. -/
def specEdge : RunStatus → RunStatus → Bool
  | .initial, .requirementsProcessing => true
  | .requirementsProcessing, .requirementsWaitingApproval => true
  | .requirementsProcessing, .requirementsRejected => true
  | .requirementsWaitingApproval, .requirementsApproved => true
  | .requirementsWaitingApproval, .requirementsRejected => true
  | .requirementsApproved, .designProcessing => true
  | .designProcessing, .designWaitingApproval => true
  | .designProcessing, .designRejected => true
  | .designProcessing, .designProcessing => true
  | .designWaitingApproval, .designApproved => true
  | .designWaitingApproval, .designRejected => true
  | .designApproved, .validationProcessing => true
  | .validationProcessing, .validationPassed => true
  | .validationProcessing, .validationFailed => true
  | .validationFailed, .designProcessing => true
  | .validationFailed, .designRejected => true
  | .validationPassed, .executionProcessing => true
  | .executionProcessing, .executionCompleted => true
  | .executionProcessing, .executionFailed => true
  | _, _ => false

/-- `edgesOk c l`: starting from status `c`, every consecutive step of `l` is
an edge of the specified graph. -/
def edgesOk : RunStatus → List RunStatus → Bool
  | _, [] => true
  | c, n :: rest => specEdge c n && edgesOk n rest

/-- A full status trace conforms to the graph when it starts in `Initial`
(run creation) and every subsequent step is a graph edge. -/
def traceConform : List RunStatus → Bool
  | [] => true
  | h :: t => (h = RunStatus.initial : Bool) && edgesOk h t

/-- The statuses that one operation sets (the new suffix of the trace). -/
def opTrace (op : Op) (o : Orch) : List RunStatus :=
  (applyOp op o).trace.drop o.trace.length

/-- One operation conforms to the graph at `o`: counted from the run's
current status (or from creation in `Initial` when the run does not exist
yet), every status it sets follows a graph edge. -/
def opConform (o : Orch) (op : Op) : Bool :=
  match o.run with
  | some r => edgesOk r.status (opTrace op o)
  | none =>
    match opTrace op o with
    | [] => true
    | h :: t => (h = RunStatus.initial : Bool) && edgesOk h t

/-- The protocol-order condition: the operation arrives while the run is in
the state the workflow expects for it (fresh for submit; the matching
processing state for a worker report; the matching waiting state for a
pending gate). -/
def expects (o : Orch) : Op → Prop
  | .submit => o.run = none
  | .taskComplete r _ _ =>
    (r = some "requirements" → currentStatus o = .requirementsProcessing) ∧
    (r = some "planner" → currentStatus o = .designProcessing)
  | .valResult _ _ => currentStatus o = .validationProcessing
  | .approve _ =>
    (o.approval = some "waiting_architecture_plan_approval" →
      currentStatus o = .requirementsWaitingApproval) ∧
    (o.approval = some "waiting_execution_approval" →
      currentStatus o = .designWaitingApproval)

/-- True when the run is in a terminal state (the `*Rejected`, `*Completed`,
`*Failed` and `Cancelled` states from which the workflow defines no outgoing
transition). -/
def isTerminal : RunStatus → Bool
  | .requirementsRejected | .designRejected | .executionCompleted
  | .executionFailed | .cancelled => true
  | _ => false

/-! ## Shared string and list helpers -/

/-- `pat` occurs as a contiguous subsequence of `l` (helper for modelling the
Python expression `pat in s`). -/
def listContainsSub (pat : List Char) : List Char → Bool
  | [] => pat.isEmpty
  | c :: rest => pat.isPrefixOf (c :: rest) || listContainsSub pat rest

/-- Models the Python expression `pat in s` (substring containment) on the
character sequences of the two strings. -/
def strContains (s pat : String) : Bool := listContainsSub pat.data s.data

/-- The character sequence of `s.lower()`. -/
def lowerChars (s : String) : List Char := s.data.map Char.toLower

/-- Models Python `min(l, key := f)` over a nonempty list: the first element
with the least key (Python `min` keeps the earliest of equal keys). -/
def minBy (f : α → Nat) : List α → Option α
  | [] => none
  | x :: xs => some (xs.foldl (fun b a => if f a < f b then a else b) x)

/-! ## Sandboxed filesystem gateway (`src/mcp_host/main.py`) -/

namespace Gateway

/-- Models `os.path.isabs` (POSIX absolute path or Windows separator-rooted
path): the first character is a path separator. -/
def isAbsPath (p : String) : Bool :=
  match p.data with
  | [] => false
  | c :: _ => c = '/' || c = '\\'

/-- The filesystem environment the gateway runs against: whether the string
`str((PROJECT_ROOT / p).resolve())` starts with `str(PROJECT_ROOT.resolve())`
(the post-resolution sandbox check), and existence / directory queries. -/
structure FsEnv where
  resolvedInRoot : String → Bool
  fileExists : String → Bool
  isDir : String → Bool

/-- Result of one gateway operation as observed by the caller. -/
inductive FsOutcome where
  /-- `{"success": False, "error": "Ruta inválida o insegura"}`. -/
  | rejectedUnsafePath
  /-- `{"success": False, "error": "Ruta fuera del sandbox del proyecto"}`. -/
  | rejectedOutsideRoot
  /-- `{"success": False, "error": <not found>}`. -/
  | notFound
  /-- `{"success": False, "error": "La ruta especificada no es un directorio"}`. -/
  | notADir
  /-- `{"success": True, ...}`. -/
  | ok
  deriving DecidableEq, Repr

/-- Whether an outcome is a `{"success": False}` reply. -/
def FsOutcome.isFailure : FsOutcome → Bool
  | .ok => false
  | _ => true

/-- A gateway reply together with whether the operation performed any
filesystem mutation (`mkdir` of parents or the file write). -/
structure FsReply where
  outcome : FsOutcome
  sideEffect : Bool
  deriving DecidableEq, Repr

/-- `tool_write_file`: reject a missing/empty path, a path containing `".."`
as a substring, or an absolute path; then reject when the resolved path
escapes the project root; otherwise create parent directories and write. -/
def toolWriteFile (env : FsEnv) (path : Option String) : FsReply :=
  match path with
  | none => ⟨.rejectedUnsafePath, false⟩
  | some p =>
    if p = "" || strContains p ".." || isAbsPath p then ⟨.rejectedUnsafePath, false⟩
    else if !env.resolvedInRoot p then ⟨.rejectedOutsideRoot, false⟩
    else ⟨.ok, true⟩

/-- `tool_read_file`: same two sandbox checks, then a not-found check; reads
perform no filesystem mutation. -/
def toolReadFile (env : FsEnv) (path : Option String) : FsReply :=
  match path with
  | none => ⟨.rejectedUnsafePath, false⟩
  | some p =>
    if p = "" || strContains p ".." || isAbsPath p then ⟨.rejectedUnsafePath, false⟩
    else if !env.resolvedInRoot p then ⟨.rejectedOutsideRoot, false⟩
    else if !env.fileExists p then ⟨.notFound, false⟩
    else ⟨.ok, false⟩

/-- `tool_list_files`: the path defaults to `"."` when absent; the unsafe-path
check does not special-case the empty string here (the source omits the
`not path_str` test for this endpoint). -/
def toolListFiles (env : FsEnv) (path : Option String) : FsReply :=
  let p := path.getD "."
  if strContains p ".." || isAbsPath p then ⟨.rejectedUnsafePath, false⟩
  else if !env.resolvedInRoot p then ⟨.rejectedOutsideRoot, false⟩
  else if !env.fileExists p then ⟨.notFound, false⟩
  else if !env.isDir p then ⟨.notADir, false⟩
  else ⟨.ok, false⟩

end Gateway

/-! ## Credential pool (`src/dirgen_core/llm_services/gemini_key_rotator.py`)

Machine time is a natural number of seconds; `datetime.min` becomes `0` and
`timedelta(minutes=5)` becomes `300`. -/

namespace Rotator

/-- `ApiKeyStatus` dataclass. -/
structure ApiKeyStatus where
  keyId : String
  keyValue : String
  isActive : Bool
  lastUsed : Option Nat
  consecutiveFailures : Nat
  rateLimitUntil : Option Nat
  totalRequests : Nat
  successfulRequests : Nat
  deriving DecidableEq, Repr

/-- The rate-limit cooldown window (`timedelta(minutes=5)`). -/
def COOLDOWN_SECONDS : Nat := 300

/-- `ApiKeyStatus.is_available`: active and not inside a cooldown window. -/
def isAvailable (now : Nat) (k : ApiKeyStatus) : Bool :=
  k.isActive &&
    (match k.rateLimitUntil with
     | none => true
     | some t => decide (¬ now < t))

/-- `ApiKeyStatus.record_success`. -/
def recordSuccess (now : Nat) (k : ApiKeyStatus) : ApiKeyStatus :=
  { k with lastUsed := some now, totalRequests := k.totalRequests + 1,
           successfulRequests := k.successfulRequests + 1,
           consecutiveFailures := 0 }

/-- `ApiKeyStatus.record_failure`: bump the failure counters and, on a
rate-limit failure, set the cooldown window. -/
def recordFailure (now : Nat) (isRateLimit : Bool) (k : ApiKeyStatus) : ApiKeyStatus :=
  let k := { k with lastUsed := some now, totalRequests := k.totalRequests + 1,
                    consecutiveFailures := k.consecutiveFailures + 1 }
  if isRateLimit then { k with rateLimitUntil := some (now + COOLDOWN_SECONDS) }
  else k

/-- The rate-limit indicators of `record_request_result`. -/
def rateLimitIndicators : List String :=
  ["rate limit", "too many requests", "quota exceeded", "429"]

/-- Rate-limit classification of an error message (case-insensitive substring
match against the indicators). -/
def isRateLimitMsg (msg : String) : Bool :=
  rateLimitIndicators.any (fun ind => listContainsSub ind.data (lowerChars msg))

/-- `GeminiKeyRotator`: the ordered key map (Python dicts preserve insertion
order) and the round-robin index. -/
structure GeminiKeyRotator where
  keys : List ApiKeyStatus
  currentKeyIndex : Nat
  deriving DecidableEq, Repr

/-- `get_current_key`: single key short-circuit; otherwise round-robin over
the available keys, falling back to the key with the earliest cooldown expiry
when none is available.  Returns `none` only for an empty pool, which the
source constructor rejects. -/
def getCurrentKey (now : Nat) (r : GeminiKeyRotator) : Option String × GeminiKeyRotator :=
  if r.keys.length = 1 then
    (r.keys.head?.map ApiKeyStatus.keyValue, r)
  else
    let avail := r.keys.filter (isAvailable now)
    match avail with
    | [] =>
      ((minBy (fun k => k.rateLimitUntil.getD 0) r.keys).map ApiKeyStatus.keyValue, r)
    | a :: rest =>
      let n := (a :: rest).length
      let idx := if n ≤ r.currentKeyIndex then 0 else r.currentKeyIndex
      let sel := (a :: rest).getD idx a
      (some sel.keyValue, { r with currentKeyIndex := (idx + 1) % n })

/-- Apply `f` to the first element satisfying `p` (the `for ... break` search
of `record_request_result`); identity when no element matches. -/
def updFirst (p : α → Bool) (f : α → α) : List α → List α
  | [] => []
  | x :: xs => if p x then f x :: xs else x :: updFirst p f xs

/-- `record_request_result`: find the key with the reported secret and record
the success or (rate-limit-classified) failure on it. -/
def recordRequestResult (now : Nat) (apiKey : String) (success : Bool)
    (errorMsg : String) (r : GeminiKeyRotator) : GeminiKeyRotator :=
  if success then
    { r with keys := updFirst (fun k => k.keyValue = apiKey) (recordSuccess now) r.keys }
  else
    let f := recordFailure now (isRateLimitMsg errorMsg)
    { r with keys := updFirst (fun k => k.keyValue = apiKey) f r.keys }

end Rotator

/-! ## Local backend lifecycle manager
(`src/dirgen_core/llm_services/local_model_manager.py`)

The Docker execution environment is an explicit record: the list of backends
`docker model ps` reports as running, and whether a start / stop attempt on a
given backend succeeds (start success models the bounded polling loop
confirming the backend; stop success models process termination or
`docker model unload` succeeding). -/

namespace Models

/-- The metadata `_update_model_metadata` keeps per managed backend. -/
structure ModelMeta where
  startedAt : Nat
  lastUsed : Nat
  totalRequests : Nat
  deriving DecidableEq, Repr

/-- Manager state: `_active_models` in insertion order plus the configured
concurrency ceiling, together with the Docker-visible running set. -/
structure MState where
  activeModels : List (String × ModelMeta)
  running : List String
  maxConcurrentModels : Nat
  deriving DecidableEq, Repr

/-- Outcomes of the Docker-level start and stop attempts. -/
structure MEnv where
  startOk : String → Bool
  stopOk : String → Bool

/-- `_update_model_metadata`: create the entry on first use, then update
`last_used` and the request counter in place. -/
def updateMeta (now : Nat) (id : String) (st : MState) : MState :=
  if st.activeModels.any (fun e => e.1 = id) then
    { st with activeModels := st.activeModels.map (fun e =>
        if e.1 = id then
          (e.1, { e.2 with lastUsed := now, totalRequests := e.2.totalRequests + 1 })
        else e) }
  else
    { st with activeModels := st.activeModels ++ [(id, ⟨now, now, 1⟩)] }

/-- The backend `_stop_least_used_model` picks: the managed backend with the
least `last_used` (first such in insertion order, as Python `min`). -/
def leastUsedModel (st : MState) : Option String :=
  (minBy (fun e => e.2.lastUsed) st.activeModels).map Prod.fst

/-- `_stop_model`: when the stop attempt succeeds, the metadata entry is
removed and the backend leaves the Docker running set; on failure the state
is unchanged (the source keeps the metadata when neither termination path
succeeded). -/
def stopModel (env : MEnv) (id : String) (st : MState) : MState :=
  if env.stopOk id then
    { st with activeModels := st.activeModels.filter (fun e => e.1 ≠ id),
              running := st.running.filter (fun x => x ≠ id) }
  else st

/-- `_stop_least_used_model`: no-op on an empty managed set. -/
def stopLeastUsed (env : MEnv) (st : MState) : MState :=
  match leastUsedModel st with
  | none => st
  | some id => stopModel env id st

/-- Result of `_start_model`: the returned boolean, which backend (if any) an
eviction was attempted on, and the final state. -/
structure StartResult where
  ok : Bool
  evictionTarget : Option String
  state : MState
  deriving DecidableEq, Repr

/-- `_start_model`: short-circuit when Docker already reports the backend;
otherwise evict the least-recently-used managed backend first when the
running count has reached the ceiling, then attempt the start and record
metadata on confirmation. -/
def startModel (env : MEnv) (now : Nat) (id : String) (st : MState) : StartResult :=
  if st.running.contains id then
    ⟨true, none, updateMeta now id st⟩
  else
    let evict :=
      if st.maxConcurrentModels ≤ st.running.length then leastUsedModel st else none
    let st' :=
      match evict with
      | some e => stopModel env e st
      | none => st
    if env.startOk id then
      ⟨true, evict, updateMeta now id { st' with running := st'.running ++ [id] }⟩
    else ⟨false, evict, st'⟩

end Models

/-! ## Provider failover engine with response cache
(`src/dirgen_core/llm_services/main_llm_service.py`)

Prompts are sequences of characters (`List Char`) so that the source's
truncation to the first 200 characters is the plain `List.take 200`.  The
provider environment gives the outcome of calling each provider once during
one `ask_llm` invocation; the emergency fallback calls the same
`call_local_llm(model_id, messages)` as the `"local"` provider, hence shares
its outcome. -/

namespace LLM

/-- Prompts as character sequences. -/
abbrev Prompt := List Char

/-- `_get_cache_key`: the key is determined by the first 200 characters of
each prompt (the source hashes `f"{system_prompt[:200]}|{user_prompt[:200]}"`
with md5; the embedding keeps the truncated pair itself, which the hash is a
function of). -/
def getCacheKey (systemPrompt userPrompt : Prompt) : Prompt × Prompt :=
  (systemPrompt.take 200, userPrompt.take 200)

/-- `_cache_max_size`. -/
def CACHE_MAX_SIZE : Nat := 50

/-- The response cache `_llm_cache`, as an insertion-ordered association
list (Python dicts preserve insertion order). -/
abbrev Cache := List ((Prompt × Prompt) × String)

/-- Cache lookup (`cache_key in _llm_cache` / `_llm_cache[cache_key]`). -/
def cacheLookup (c : Cache) (k : Prompt × Prompt) : Option String :=
  (c.find? (fun e => e.1 = k)).map Prod.snd

/-- The cache write of `ask_llm`: when the cache is full, delete the oldest
20% (`list(_llm_cache.keys())[:_cache_max_size // 5]`), then assign
`_llm_cache[cache_key] = response` (dict assignment replaces in place when
the key exists, appends otherwise). -/
def cacheStore (c : Cache) (k : Prompt × Prompt) (v : String) : Cache :=
  let c := if CACHE_MAX_SIZE ≤ c.length then c.drop (CACHE_MAX_SIZE / 5) else c
  if c.any (fun e => e.1 = k) then
    c.map (fun e => if e.1 = k then (e.1, v) else e)
  else c ++ [(k, v)]

/-- The task classes eligible for caching. -/
def cacheableTasks : List String := ["verification", "validation", "simple_generation"]

/-- `_is_rate_limit_error` indicators. -/
def rateLimitIndicators : List String :=
  ["rate limit", "too many requests", "quota exceeded",
   "demasiadas peticiones", "límite excedido", "429",
   "quota_exceeded", "rate_limit_exceeded", "usage_limit"]

/-- `_is_rate_limit_error`. -/
def isRateLimitError (msg : String) : Bool :=
  rateLimitIndicators.any (fun ind => listContainsSub ind.data (lowerChars msg))

/-- The provider names `create_llm_provider` recognises. -/
def knownProviders : List String :=
  ["local", "groq", "openai", "anthropic", "xai", "gemini"]

/-- Outcome of calling each provider once within one `ask_llm` invocation. -/
structure LLMEnv where
  providerResult : String → Except String String

/-- The aggregate failure message raised on exhaustion (without the source's
quotation marks around the task class; no claim depends on the text). -/
def exhaustMsg (taskType : String) (rateLimit : Bool) (lastErr : Option String) : String :=
  "Todos los proveedores LLM fallaron para tarea " ++ taskType ++ ". " ++
    (if rateLimit then "Rate limiting detectado - considera usar mas modelos locales. "
     else "") ++
    "Ultimo error: " ++ lastErr.getD "None"

/-- The per-task-class provider ordering of `ask_llm`: complex classes and
every class other than `simple_generation` keep the base order;
`simple_generation` moves `"local"` to the front. -/
def adjustPriority (taskType : String) (base : List String) : List String :=
  if ["planning", "complex_generation", "architecture"].contains taskType then base
  else if taskType = "simple_generation" then
    "local" :: base.filter (fun p => p ≠ "local")
  else base

/-- Result of one `ask_llm` call: the response (or the exhaustion error), the
cache afterwards, and how many provider invocations were made. -/
structure AskOut where
  response : Except String String
  cache : Cache
  providerCalls : Nat
  deriving Repr

/-- The attempt loop of `ask_llm` over the remaining candidates.  `priority`
is the full ordered candidate list (used for the
`"local" not in priority_order[:index(provider)+1]` emergency condition);
unknown providers are skipped; a rate-limited cloud failure triggers one
emergency local attempt whose success returns without writing the cache. -/
def askLoop (env : LLMEnv) (cacheEligible : Bool) (key : Prompt × Prompt)
    (taskType : String) (priority : List String) :
    List String → Option String → Bool → Cache → AskOut
  | [], lastErr, rl, c => ⟨.error (exhaustMsg taskType rl lastErr), c, 0⟩
  | p :: rest, lastErr, rl, c =>
    if knownProviders.contains p = false then
      askLoop env cacheEligible key taskType priority rest lastErr rl c
    else
      match env.providerResult p with
      | .ok resp =>
        let c' := if cacheEligible then cacheStore c key resp else c
        ⟨.ok resp, c', 1⟩
      | .error e =>
        if isRateLimitError e then
          if p ≠ "local" ∧
              ((priority.take (priority.indexOf p + 1)).contains "local" = false) then
            match env.providerResult "local" with
            | .ok fr => ⟨.ok fr, c, 2⟩
            | .error _ =>
              let out := askLoop env cacheEligible key taskType priority rest (some e) true c
              ⟨out.response, out.cache, out.providerCalls + 2⟩
          else
            let out := askLoop env cacheEligible key taskType priority rest (some e) true c
            ⟨out.response, out.cache, out.providerCalls + 1⟩
        else
          let out := askLoop env cacheEligible key taskType priority rest (some e) rl c
          ⟨out.response, out.cache, out.providerCalls + 1⟩

/-- `ask_llm`: cache check for cacheable task classes, then the prioritised
attempt loop.  `basePriority` is the parsed `LLM_PRIORITY_ORDER`; `modelId`
only selects which local model the local provider runs, which the embedding
does not observe. -/
def ask_llm (env : LLMEnv) (basePriority : List String) (c : Cache)
    (modelId : String) (systemPrompt userPrompt : Prompt)
    (taskType : String) (useCache : Bool) : AskOut :=
  let cacheEligible := useCache && cacheableTasks.contains taskType
  let key := getCacheKey systemPrompt userPrompt
  let run : Unit → AskOut := fun _ =>
    askLoop env cacheEligible key taskType (adjustPriority taskType basePriority)
      (adjustPriority taskType basePriority) none false c
  if cacheEligible then
    match cacheLookup c key with
    | some v => ⟨.ok v, c, 0⟩
    | none => run ()
  else run ()

end LLM

/-! ## Concrete states used in the closed instantiations -/

/-- Decidable equality for `Except` results (both components decidable). -/
instance {α β : Type} [DecidableEq α] [DecidableEq β] : DecidableEq (Except α β)
  | .ok a, .ok b => if h : a = b then isTrue (by rw [h]) else isFalse (by simp [h])
  | .ok _, .error _ => isFalse (by simp)
  | .error _, .ok _ => isFalse (by simp)
  | .error a, .error b => if h : a = b then isTrue (by rw [h]) else isFalse (by simp [h])

/-- A run already in the terminal state `DESIGN_REJECTED`. -/
def terminalRun : Orch :=
  { run := some ⟨.designRejected, 3⟩, retry := none, approval := none,
    pcceExists := true, launched := [], trace := [] }

/-- A run in `VALIDATION_FAILED` with one recorded retry and its PCCE file
present. -/
def retryRun : Orch :=
  { run := some ⟨.validationFailed, 1⟩, retry := some ⟨1, ["e1"]⟩, approval := none,
    pcceExists := true, launched := [], trace := [] }

/-- A filesystem environment whose resolution check accepts everything (so a
rejection can only come from the gateway's own path checks). -/
def fsEnvTrue : Gateway.FsEnv :=
  ⟨fun _ => true, fun _ => true, fun _ => true⟩

/-- Two healthy pool credentials with distinct secrets. -/
def keyA : Rotator.ApiKeyStatus := ⟨"gemini_key_1", "secretA", true, none, 0, none, 0, 0⟩

/-- See `keyA`. -/
def keyB : Rotator.ApiKeyStatus := ⟨"gemini_key_2", "secretB", true, none, 0, none, 0, 0⟩

/-- A two-credential pool. -/
def poolAB : Rotator.GeminiKeyRotator := ⟨[keyA, keyB], 0⟩

/-- A manager at its ceiling of 2 with two running managed backends;
`ai/y` is the least recently used. -/
def managerFull : Models.MState :=
  ⟨[("ai/x", ⟨0, 5, 1⟩), ("ai/y", ⟨0, 3, 1⟩)], ["ai/x", "ai/y"], 2⟩

/-- A Docker environment where every start and stop attempt succeeds. -/
def dockerOk : Models.MEnv := ⟨fun _ => true, fun _ => true⟩

/-- A provider environment where every provider answers `"R"`. -/
def llmEnvOk : LLM.LLMEnv := ⟨fun _ => .ok "R"⟩

/-- A 201-character prompt: 200 copies of `a` then `b`. -/
def sysA : LLM.Prompt := List.replicate 200 'a' ++ ['b']

/-- A 201-character prompt: 200 copies of `a` then `c`; differs from `sysA`
only beyond the 200th character. -/
def sysB : LLM.Prompt := List.replicate 200 'a' ++ ['c']

/-!
# Theorems

Helper lemmas first, then one theorem per claim (with its witness or
counterexample where required).
-/

lemma dropTrace₁ (l : List RunStatus) (a : RunStatus) :
    (l ++ [a]).drop l.length = [a] := List.drop_left l [a]

lemma dropTrace₂ (l : List RunStatus) (a b : RunStatus) :
    ((l ++ [a]) ++ [b]).drop l.length = [a, b] := by
  rw [List.append_assoc]; exact List.drop_left l [a, b]

lemma dropTrace₃ (l : List RunStatus) (a b c : RunStatus) :
    (((l ++ [a]) ++ [b]) ++ [c]).drop l.length = [a, b, c] := by
  rw [List.append_assoc, List.append_assoc]; exact List.drop_left l [a, b, c]

/-- Claim C1 (counterexample): the orchestrator's report handlers never
consult the current run state, so a `validation_result` success arriving
right after submission moves a run from `RequirementsProcessing` straight to
`ValidationPassed` — an edge outside the specified graph that skips both
approval gates. -/
theorem c1_offgraph_transition_counterexample :
    (applyOp (.valResult true none) (applyOp .submit emptyOrch)).trace
      = [.initial, .requirementsProcessing, .validationPassed] ∧
    specEdge .requirementsProcessing .validationPassed = false ∧
    traceConform
      ((applyOp (.valResult true none) (applyOp .submit emptyOrch)).trace) = false := by
  decide

/-- Claim C1 (amended): the handlers do not guard on the current `RunState`,
so the transition graph is respected only under protocol order — whenever an
operation arrives while the run is in the state the workflow expects for it
(fresh for submit, the matching processing state for a worker report, the
matching waiting state for a pending approval gate), every status it sets
follows an edge of the specified graph and no approval gate is skipped. -/
theorem c1_graph_conformance_under_protocol_order :
    ∀ (o : Orch) (op : Op), expects o op → opConform o op = true := by
  intro o op h
  cases op with
  | submit =>
    simp only [expects] at h
    simp [opConform, opTrace, applyOp, initiateFromSvad, runPhase0Requirements,
      setRunStatus, h, dropTrace₂]
    decide
  | taskComplete r s re =>
    obtain ⟨hreq, hpl⟩ := h
    by_cases hr : r = some "requirements"
    · have hst := hreq hr
      rcases ho : o.run with _ | e
      · simp [currentStatus, ho] at hst
      · simp [currentStatus, ho] at hst
        by_cases hs : s.getD "success" = "failed" <;>
          (simp [opConform, opTrace, applyOp, agentTaskComplete, hr, hs, ho, hst,
            setRunStatus, dropTrace₁]; decide)
    · by_cases hp : r = some "planner"
      · have hst := hpl hp
        rcases ho : o.run with _ | e
        · simp [currentStatus, ho] at hst
        · simp [currentStatus, ho] at hst
          by_cases hs1 : s.getD "success" = "impossible"
          · simp [opConform, opTrace, applyOp, agentTaskComplete, hr, hp, hs1, ho, hst,
              setRunStatus, dropTrace₁]; decide
          · by_cases hs2 : s.getD "success" = "failed"
            · simp [opConform, opTrace, applyOp, agentTaskComplete, hr, hp, hs1, hs2, ho,
                hst, setRunStatus, dropTrace₁]; decide
            · by_cases hs3 : s.getD "success" = "incomplete"
              · by_cases hk : (o.retry.getD ⟨0, []⟩).retryCount + 1 ≤ MAX_RETRIES
                · by_cases hpc : o.pcceExists <;>
                    (simp [opConform, opTrace, applyOp, agentTaskComplete, hr, hp, hs1,
                      hs2, hs3, handleValidationFailure, hk, hpc, runPhase1Design, ho,
                      hst, setRunStatus, dropTrace₁, dropTrace₂]; decide)
                · simp [opConform, opTrace, applyOp, agentTaskComplete, hr, hp, hs1, hs2,
                    hs3, handleValidationFailure, hk, ho, hst, setRunStatus, dropTrace₁]
                  decide
              · simp [opConform, opTrace, applyOp, agentTaskComplete, hr, hp, hs1, hs2,
                  hs3, ho, hst, setRunStatus, dropTrace₁]; decide
      · rcases ho : o.run with _ | e <;>
          simp [opConform, opTrace, applyOp, agentTaskComplete, hr, hp, ho,
            List.drop_length, edgesOk]
  | valResult ok m =>
    simp only [expects] at h
    rcases ho : o.run with _ | e
    · simp [currentStatus, ho] at h
    · simp [currentStatus, ho] at h
      cases ok with
      | true =>
        simp [opConform, opTrace, applyOp, validationResult, ho, h, setRunStatus,
          dropTrace₁]
        decide
      | false =>
        by_cases hk : (o.retry.getD ⟨0, []⟩).retryCount + 1 ≤ MAX_RETRIES
        · by_cases hpc : o.pcceExists <;>
            (simp [opConform, opTrace, applyOp, validationResult, handleValidationFailure,
              hk, hpc, runPhase1Design, ho, h, setRunStatus, dropTrace₂, dropTrace₃]
             decide)
        · simp [opConform, opTrace, applyOp, validationResult, handleValidationFailure,
            hk, ho, h, setRunStatus, dropTrace₂]
          decide
  | approve a =>
    obtain ⟨harch, hexec⟩ := h
    rcases hg : o.approval with _ | g
    · rcases ho : o.run with _ | e <;>
        simp [opConform, opTrace, applyOp, approvePlan, hg, ho, List.drop_length, edgesOk]
    · by_cases hg1 : g = "waiting_architecture_plan_approval"
      · have hst := harch (by rw [hg, hg1])
        rcases ho : o.run with _ | e
        · simp [currentStatus, ho] at hst
        · simp [currentStatus, ho] at hst
          cases a with
          | true =>
            by_cases hpc : o.pcceExists <;>
              (simp [opConform, opTrace, applyOp, approvePlan, hg, hg1, hpc,
                runPhase1Design, ho, hst, setRunStatus, dropTrace₂,
                List.drop_length, edgesOk]
               first
               | decide
               | skip)
          | false =>
            simp [opConform, opTrace, applyOp, approvePlan, hg, hg1, ho, hst,
              setRunStatus, dropTrace₁]
            decide
      · by_cases hg2 : g = "waiting_execution_approval"
        · have hst := hexec (by rw [hg, hg2])
          rcases ho : o.run with _ | e
          · simp [currentStatus, ho] at hst
          · simp [currentStatus, ho] at hst
            cases a with
            | true =>
              by_cases hpc : o.pcceExists <;>
                (simp [opConform, opTrace, applyOp, approvePlan, hg, hg1, hg2, hpc,
                  runQualityGate1, ho, hst, setRunStatus, dropTrace₂,
                  List.drop_length, edgesOk]
                 first
                 | decide
                 | skip)
            | false =>
              simp [opConform, opTrace, applyOp, approvePlan, hg, hg1, hg2, ho, hst,
                setRunStatus, dropTrace₁]
              decide
        · rcases ho : o.run with _ | e <;>
            simp [opConform, opTrace, applyOp, approvePlan, hg, hg1, hg2, ho,
              List.drop_length, edgesOk]

/-- Claim C1 witness: a fresh run submitted in protocol order conforms. -/
theorem c1_graph_conformance_witness :
    expects emptyOrch Op.submit ∧ opConform emptyOrch Op.submit = true :=
  ⟨rfl, c1_graph_conformance_under_protocol_order emptyOrch Op.submit rfl⟩

/-- Claim C2: on a design-incomplete report or a validation failure the retry
algorithm increments the run's counter and appends the reason; at or below
`MAX_RETRIES` the run re-enters `DesignProcessing` and the planner is
re-launched with the enriched feedback (current reason plus the joined prior
reasons); above `MAX_RETRIES` the run is `DesignRejected`, the retry record
is discarded and nothing further is launched; the surviving counter never
exceeds `MAX_RETRIES`. -/
theorem c2_retry_algorithm_correct :
    ∀ (o : Orch) (msg : String), o.pcceExists = true →
    (agentTaskComplete (some "planner") (some "incomplete") (some msg) o =
      handleValidationFailure msg o) ∧
    (validationResult false (some msg) o =
      handleValidationFailure msg (setRunStatus .validationFailed none o)) ∧
    ((o.retry.getD ⟨0, []⟩).retryCount + 1 ≤ MAX_RETRIES →
      (handleValidationFailure msg o).retry =
        some ⟨(o.retry.getD ⟨0, []⟩).retryCount + 1,
              (o.retry.getD ⟨0, []⟩).feedbackHistory ++ [msg]⟩ ∧
      currentStatus (handleValidationFailure msg o) = .designProcessing ∧
      (handleValidationFailure msg o).run =
        some ⟨.designProcessing, (o.retry.getD ⟨0, []⟩).retryCount + 1⟩ ∧
      (handleValidationFailure msg o).launched = o.launched ++
        [Launch.planner (some (mkFeedback ((o.retry.getD ⟨0, []⟩).retryCount + 1) msg
          ((o.retry.getD ⟨0, []⟩).feedbackHistory ++ [msg])))]) ∧
    ((o.retry.getD ⟨0, []⟩).retryCount + 1 > MAX_RETRIES →
      (handleValidationFailure msg o).retry = none ∧
      currentStatus (handleValidationFailure msg o) = .designRejected ∧
      (handleValidationFailure msg o).launched = o.launched) ∧
    (∀ x ∈ (handleValidationFailure msg o).retry, x.retryCount ≤ MAX_RETRIES) := by
  intro o msg hpc
  refine ⟨by simp [agentTaskComplete], by simp [validationResult], ?_, ?_, ?_⟩
  · intro hk
    simp [handleValidationFailure, hk, hpc, runPhase1Design, setRunStatus, currentStatus]
  · intro hk
    simp [handleValidationFailure, Nat.not_le.mpr hk, setRunStatus, currentStatus]
  · by_cases hk : (o.retry.getD ⟨0, []⟩).retryCount + 1 ≤ MAX_RETRIES <;>
      simp [handleValidationFailure, hk, hpc, runPhase1Design, setRunStatus]

/-- Claim C2 witness: the run in `VALIDATION_FAILED` with one prior retry. -/
theorem c2_retry_algorithm_witness :
    retryRun.pcceExists = true ∧
    (handleValidationFailure "e2" retryRun).retry = some ⟨2, ["e1", "e2"]⟩ ∧
    currentStatus (handleValidationFailure "e2" retryRun) = .designProcessing ∧
    (handleValidationFailure "e2" retryRun).launched =
      [Launch.planner (some (mkFeedback 2 "e2" ["e1", "e2"]))] :=
  ⟨rfl,
   ((c2_retry_algorithm_correct retryRun "e2" rfl).2.2.1 (by decide)).1,
   ((c2_retry_algorithm_correct retryRun "e2" rfl).2.2.1 (by decide)).2.1,
   ((c2_retry_algorithm_correct retryRun "e2" rfl).2.2.1 (by decide)).2.2.2⟩

/-- Claim C3: approving a run that holds no open approval gate (its
`APPROVAL_STATES` entry is absent or not one of the two waiting values)
always fails with the invalid-state error and mutates nothing; a repeated
invalid call is again the same no-op. -/
theorem c3_approve_without_gate_is_noop :
    ∀ (o : Orch) (a b : Bool),
    o.approval ≠ some "waiting_architecture_plan_approval" →
    o.approval ≠ some "waiting_execution_approval" →
    approvePlan a o = (.invalidState, o) ∧
    approvePlan b (approvePlan a o).2 = (.invalidState, o) := by
  intro o a b h1 h2
  have key : ∀ c : Bool, approvePlan c o = (.invalidState, o) := by
    intro c
    rcases hg : o.approval with _ | g
    · simp [approvePlan, hg]
    · rw [hg] at h1 h2
      simp only [ne_eq, Option.some.injEq] at h1 h2
      simp [approvePlan, hg, h1, h2]
  exact ⟨key a, by rw [key a]; exact key b⟩

/-- Claim C3 witness: a terminal run with no gate. -/
theorem c3_approve_without_gate_witness :
    terminalRun.approval ≠ some "waiting_architecture_plan_approval" ∧
    terminalRun.approval ≠ some "waiting_execution_approval" ∧
    approvePlan true terminalRun = (.invalidState, terminalRun) ∧
    approvePlan false (approvePlan true terminalRun).2 = (.invalidState, terminalRun) :=
  ⟨by decide, by decide,
   (c3_approve_without_gate_is_noop terminalRun true false (by decide) (by decide)).1,
   (c3_approve_without_gate_is_noop terminalRun true false (by decide) (by decide)).2⟩

/-- Claim C4 (counterexample): a worker outcome report arriving for a run
already in the terminal state `DesignRejected` is not ignored — a
`validation_result` success changes the run's state (to `ValidationPassed`). -/
theorem c4_terminal_report_counterexample :
    isTerminal (currentStatus terminalRun) = true ∧
    currentStatus (applyOp (.valResult true none) terminalRun) ≠
      currentStatus terminalRun := by
  decide

/-- Claim C4 (amended): worker outcome reports are processed unconditionally
— the handlers never check the run's current state, so a report arriving
after any terminal state still rewrites the run state (a validation success
to `ValidationPassed`, a planner success to `DesignWaitingApproval` with a
fresh execution gate) instead of being silently ignored. -/
theorem c4_reports_processed_after_terminal :
    ∀ (o : Orch) (m : Option String), isTerminal (currentStatus o) = true →
    currentStatus (applyOp (.valResult true m) o) = .validationPassed ∧
    currentStatus (applyOp (.taskComplete (some "planner") none none) o) =
      .designWaitingApproval ∧
    (applyOp (.taskComplete (some "planner") none none) o).approval =
      some "waiting_execution_approval" := by
  intro o m _
  refine ⟨?_, ?_, ?_⟩
  · simp [applyOp, validationResult, setRunStatus, currentStatus]
  · simp [applyOp, agentTaskComplete, setRunStatus, currentStatus]
  · simp [applyOp, agentTaskComplete, setRunStatus]

/-- Claim C4 witness: the terminal `DesignRejected` run. -/
theorem c4_reports_processed_witness :
    isTerminal (currentStatus terminalRun) = true ∧
    currentStatus (applyOp (.valResult true none) terminalRun) = .validationPassed :=
  ⟨by decide, (c4_reports_processed_after_terminal terminalRun none (by decide)).1⟩

/-- Claim C10: a planner `task_complete` whose `status` is absent or any
string other than `"impossible"`, `"failed"`, `"incomplete"` is handled as a
success (run to `DesignWaitingApproval`, execution gate opened); for the
requirements role any status other than `"failed"` is likewise a success
(run to `RequirementsWaitingApproval`, architecture gate opened). -/
theorem c10_unknown_status_treated_as_success :
    ∀ (o : Orch) (status reason : Option String),
    (status.getD "success" ∉ (["impossible", "failed", "incomplete"] : List String) →
      currentStatus (agentTaskComplete (some "planner") status reason o) =
          .designWaitingApproval ∧
        (agentTaskComplete (some "planner") status reason o).approval =
          some "waiting_execution_approval") ∧
    (status.getD "success" ≠ "failed" →
      currentStatus (agentTaskComplete (some "requirements") status reason o) =
          .requirementsWaitingApproval ∧
        (agentTaskComplete (some "requirements") status reason o).approval =
          some "waiting_architecture_plan_approval") := by
  intro o status reason
  constructor
  · intro hst
    simp only [List.mem_cons, List.mem_singleton, not_or] at hst
    obtain ⟨h1, h2, h3⟩ := hst
    simp [agentTaskComplete, h1, h2, h3, setRunStatus, currentStatus]
  · intro h4
    simp [agentTaskComplete, h4, setRunStatus, currentStatus]

/-- Claim C10 witness: an unrecognised status string `"done"` for the planner
role, and the status `"impossible"` (other than `"failed"`, so a success) for
the requirements role. -/
theorem c10_unknown_status_witness :
    ((some "done" : Option String).getD "success" ∉
      (["impossible", "failed", "incomplete"] : List String)) ∧
    currentStatus (agentTaskComplete (some "planner") (some "done") none emptyOrch) =
      .designWaitingApproval ∧
    (agentTaskComplete (some "planner") (some "done") none emptyOrch).approval =
      some "waiting_execution_approval" ∧
    ((some "impossible" : Option String).getD "success" ≠ "failed") ∧
    currentStatus
      (agentTaskComplete (some "requirements") (some "impossible") none emptyOrch) =
      .requirementsWaitingApproval ∧
    (agentTaskComplete (some "requirements") (some "impossible") none
      emptyOrch).approval = some "waiting_architecture_plan_approval" :=
  ⟨by decide,
   ((c10_unknown_status_treated_as_success emptyOrch (some "done") none).1
     (by decide)).1,
   ((c10_unknown_status_treated_as_success emptyOrch (some "done") none).1
     (by decide)).2,
   by decide,
   ((c10_unknown_status_treated_as_success emptyOrch (some "impossible") none).2
     (by decide)).1,
   ((c10_unknown_status_treated_as_success emptyOrch (some "impossible") none).2
     (by decide)).2⟩

/-- Claim C5: a gateway path that contains `".."`, or is absolute, or whose
resolution against the project root does not start with the root path, is
rejected by all three filesystem operations with a failure reply and no
filesystem side effect. -/
theorem c5_gateway_rejects_escaping_paths :
    ∀ (env : Gateway.FsEnv) (p : String),
    strContains p ".." = true ∨ Gateway.isAbsPath p = true ∨
      env.resolvedInRoot p = false →
    ((Gateway.toolWriteFile env (some p)).outcome.isFailure = true ∧
     (Gateway.toolWriteFile env (some p)).sideEffect = false) ∧
    ((Gateway.toolReadFile env (some p)).outcome.isFailure = true ∧
     (Gateway.toolReadFile env (some p)).sideEffect = false) ∧
    ((Gateway.toolListFiles env (some p)).outcome.isFailure = true ∧
     (Gateway.toolListFiles env (some p)).sideEffect = false) := by
  intro env p h
  by_cases he : p = "" <;> by_cases hdd : strContains p ".." <;>
    by_cases habs : Gateway.isAbsPath p <;>
    by_cases hres : env.resolvedInRoot p <;>
    simp_all [Gateway.toolWriteFile, Gateway.toolReadFile, Gateway.toolListFiles,
      Gateway.FsOutcome.isFailure]

/-- Claim C5 witness: the parent-traversal path `"../x"`. -/
theorem c5_gateway_rejects_witness :
    strContains "../x" ".." = true ∧
    (Gateway.toolWriteFile fsEnvTrue (some "../x")).outcome.isFailure = true ∧
    (Gateway.toolWriteFile fsEnvTrue (some "../x")).sideEffect = false ∧
    (Gateway.toolReadFile fsEnvTrue (some "../x")).outcome.isFailure = true ∧
    (Gateway.toolListFiles fsEnvTrue (some "../x")).outcome.isFailure = true :=
  ⟨by decide,
   (c5_gateway_rejects_escaping_paths fsEnvTrue "../x" (Or.inl (by decide))).1.1,
   (c5_gateway_rejects_escaping_paths fsEnvTrue "../x" (Or.inl (by decide))).1.2,
   (c5_gateway_rejects_escaping_paths fsEnvTrue "../x" (Or.inl (by decide))).2.1.1,
   (c5_gateway_rejects_escaping_paths fsEnvTrue "../x" (Or.inl (by decide))).2.2.1⟩

/-- Claim C8: when the requested backend is not running and the running count
is at the configured ceiling, `_start_model` attempts eviction on exactly the
least-recently-used managed backend, and the eviction is applied to the state
before the start of the requested backend. -/
theorem c8_evicts_least_recently_used :
    ∀ (env : Models.MEnv) (now : Nat) (id l : String) (st : Models.MState),
    st.running.contains id = false →
    st.running.length = st.maxConcurrentModels →
    Models.leastUsedModel st = some l →
    (Models.startModel env now id st).evictionTarget = some l ∧
    (Models.startModel env now id st).state =
      (if env.startOk id then
        Models.updateMeta now id
          { Models.stopModel env l st with
            running := (Models.stopModel env l st).running ++ [id] }
       else Models.stopModel env l st) := by
  intro env now id l st hnr hceil hl
  have hge : st.maxConcurrentModels ≤ st.running.length := le_of_eq hceil.symm
  have hnr' : id ∉ st.running := by simpa using hnr
  constructor
  · by_cases hs : env.startOk id <;> simp [Models.startModel, hnr', hge, hl, hs]
  · by_cases hs : env.startOk id <;> simp [Models.startModel, hnr', hge, hl, hs]

/-- Claim C8 witness: a third backend requested at a ceiling of 2 evicts the
least-recently-used of the two running backends. -/
theorem c8_evicts_lru_witness :
    managerFull.running.contains "ai/z" = false ∧
    managerFull.running.length = managerFull.maxConcurrentModels ∧
    Models.leastUsedModel managerFull = some "ai/y" ∧
    (Models.startModel dockerOk 10 "ai/z" managerFull).evictionTarget = some "ai/y" :=
  ⟨by decide, by decide, by decide,
   (c8_evicts_least_recently_used dockerOk 10 "ai/z" "ai/y" managerFull
     (by decide) (by decide) (by decide)).1⟩

lemma mem_updFirst_of_pred_false {α : Type} (p : α → Bool) (f : α → α)
    (l : List α) (x : α) (hx : x ∈ l) (hpx : p x = false) :
    x ∈ Rotator.updFirst p f l := by
  induction l with
  | nil => simp at hx
  | cons a as ih =>
    rcases List.mem_cons.mp hx with h | h
    · subst h
      simp [Rotator.updFirst, hpx]
    · by_cases hpa : p a
      · simp [Rotator.updFirst, hpa]
        exact Or.inr h
      · simp [Rotator.updFirst, hpa]
        exact Or.inr (ih h)

lemma mem_updFirst_matched (l : List Rotator.ApiKeyStatus) (v : String)
    (f : Rotator.ApiKeyStatus → Rotator.ApiKeyStatus)
    (hnd : (l.map Rotator.ApiKeyStatus.keyValue).Nodup) :
    ∀ y ∈ Rotator.updFirst (fun k => k.keyValue = v) f l, y.keyValue = v →
      ∃ x ∈ l, x.keyValue = v ∧ y = f x := by
  induction l with
  | nil => intro y hy _; simp [Rotator.updFirst] at hy
  | cons a as ih =>
    rw [List.map_cons, List.nodup_cons] at hnd
    obtain ⟨hna, hnd'⟩ := hnd
    intro y hy hyv
    by_cases hpa : a.keyValue = v
    · rw [Rotator.updFirst, if_pos (by simp [hpa])] at hy
      rcases List.mem_cons.mp hy with h | h
      · exact ⟨a, List.mem_cons_self a as, hpa, h⟩
      · exact absurd (List.mem_map.mpr ⟨y, h, by rw [hyv, hpa]⟩) hna
    · rw [Rotator.updFirst, if_neg (by simp [hpa])] at hy
      rcases List.mem_cons.mp hy with h | h
      · exact absurd (h ▸ hyv) hpa
      · obtain ⟨x, hx, hxv, hyx⟩ := ih hnd' y h hyv
        exact ⟨x, List.mem_cons_of_mem _ hx, hxv, hyx⟩

lemma getD_mem {α : Type} (l : List α) (n : Nat) (d : α) (hd : d ∈ l) :
    l.getD n d ∈ l := by
  rcases h : l[n]? with _ | a
  · simpa [List.getD_eq_getElem?_getD, h] using hd
  · have ha : a ∈ l := List.getElem?_mem h
    simpa [List.getD_eq_getElem?_getD, h] using ha

lemma getCurrentKey_picks_available (now : Nat) (r : Rotator.GeminiKeyRotator)
    (hne2 : r.keys.length ≠ 1) (a : Rotator.ApiKeyStatus)
    (rest : List Rotator.ApiKeyStatus)
    (hav : r.keys.filter (Rotator.isAvailable now) = a :: rest) :
    ∃ sel ∈ r.keys.filter (Rotator.isAvailable now),
      (Rotator.getCurrentKey now r).1 = some sel.keyValue := by
  refine ⟨(a :: rest).getD
    (if (a :: rest).length ≤ r.currentKeyIndex then 0 else r.currentKeyIndex) a,
    ?_, ?_⟩
  · rw [hav]; exact getD_mem _ _ _ (List.mem_cons_self a rest)
  · unfold Rotator.getCurrentKey
    rw [if_neg hne2]
    simp only [hav]

/-- Claim C7: after a `success=False` report with a rate-limit error text on
the credential with secret `v`, the selection operation never returns `v`
during the cooldown window while some other credential (distinct secret,
active, not cooling down) is available; credential secrets are assumed
pairwise distinct, as distinct environment keys are. -/
theorem c7_cooldown_excludes_credential :
    ∀ (r : Rotator.GeminiKeyRotator) (t0 now : Nat) (v msg : String)
      (b : Rotator.ApiKeyStatus),
    (r.keys.map Rotator.ApiKeyStatus.keyValue).Nodup →
    Rotator.isRateLimitMsg msg = true →
    b ∈ r.keys → b.keyValue ≠ v → Rotator.isAvailable now b = true →
    now < t0 + Rotator.COOLDOWN_SECONDS →
    (Rotator.getCurrentKey now (Rotator.recordRequestResult t0 v false msg r)).1 ≠
      some v := by
  intro r t0 now v msg b hnd hmsg hb hbv hbav hwin
  set ks := Rotator.updFirst (fun k => k.keyValue = v)
    (Rotator.recordFailure t0 true) r.keys with hks
  have hr' : Rotator.recordRequestResult t0 v false msg r =
      ⟨ks, r.currentKeyIndex⟩ := by
    simp [Rotator.recordRequestResult, hmsg, hks]
  have hbks : b ∈ ks := by
    rw [hks]
    exact mem_updFirst_of_pred_false _ _ _ _ hb (by simp [hbv])
  have hmatched : ∀ y ∈ ks, y.keyValue = v → Rotator.isAvailable now y = false := by
    intro y hy hyv
    rw [hks] at hy
    obtain ⟨x, hx, hxv, hyx⟩ :=
      mem_updFirst_matched r.keys v (Rotator.recordFailure t0 true) hnd y hy hyv
    subst hyx
    have hnle : ¬ (t0 + Rotator.COOLDOWN_SECONDS ≤ now) := Nat.not_le.mpr hwin
    simp [Rotator.recordFailure, Rotator.isAvailable, hnle]
  rw [hr']
  by_cases hlen : ks.length = 1
  · obtain ⟨k, hk⟩ := List.length_eq_one.mp hlen
    have hbk : b = k := by rw [hk] at hbks; simpa using hbks
    unfold Rotator.getCurrentKey
    rw [if_pos hlen]
    rw [hk, ← hbk]
    simp only [List.head?_cons, Option.map_some']
    intro hc
    exact hbv (by injection hc)
  · have hbavail : b ∈ ks.filter (Rotator.isAvailable now) :=
      List.mem_filter.mpr ⟨hbks, hbav⟩
    rcases hav : ks.filter (Rotator.isAvailable now) with _ | ⟨a, rest⟩
    · rw [hav] at hbavail; simp at hbavail
    · obtain ⟨sel, hsel, heq⟩ :=
        getCurrentKey_picks_available now ⟨ks, r.currentKeyIndex⟩ hlen a rest hav
      rw [heq]
      intro hc
      have hselv : sel.keyValue = v := by injection hc
      obtain ⟨hselks, hselav⟩ := List.mem_filter.mp hsel
      rw [hmatched sel hselks hselv] at hselav
      exact Bool.false_ne_true hselav

/-- Claim C7 witness: a rate-limit failure on `secretA` at time 50; at time
100 (inside the 300-second window) selection avoids `secretA` because
`secretB` is available. -/
theorem c7_cooldown_excludes_witness :
    Rotator.isRateLimitMsg "HTTP 429 too many requests" = true ∧
    Rotator.isAvailable 100 keyB = true ∧
    (Rotator.getCurrentKey 100
      (Rotator.recordRequestResult 50 "secretA" false
        "HTTP 429 too many requests" poolAB)).1 ≠ some "secretA" :=
  ⟨by decide, by decide,
   c7_cooldown_excludes_credential poolAB 50 100 "secretA"
     "HTTP 429 too many requests" keyB (by decide) (by decide) (by decide)
     (by decide) (by decide) (by decide)⟩

lemma find?_append_singleton {α : Type} (l : List α) (p : α → Bool) (a : α)
    (hl : ∀ x ∈ l, ¬ p x) (ha : p a = true) : (l ++ [a]).find? p = some a := by
  induction l with
  | nil => simp [List.find?_cons_of_pos _ ha]
  | cons x xs ih =>
    have hx : ¬ p x := hl x (List.mem_cons_self x xs)
    rw [List.cons_append, List.find?_cons_of_neg _ hx]
    exact ih (fun y hy => hl y (List.mem_cons_of_mem _ hy))

lemma cacheLookup_cacheStore_self (c : LLM.Cache) (k : LLM.Prompt × LLM.Prompt)
    (v : String) (h : LLM.cacheLookup c k = none) :
    LLM.cacheLookup (LLM.cacheStore c k v) k = some v := by
  have hfind : c.find? (fun e => e.1 = k) = none := by
    unfold LLM.cacheLookup at h
    exact Option.map_eq_none'.mp h
  have hall : ∀ e ∈ c, ¬ ((fun (e : (LLM.Prompt × LLM.Prompt) × String) =>
      decide (e.1 = k)) e = true) := List.find?_eq_none.mp hfind
  unfold LLM.cacheStore
  by_cases hfull : LLM.CACHE_MAX_SIZE ≤ c.length
  · have hall₂ : ∀ e ∈ c.drop (LLM.CACHE_MAX_SIZE / 5),
        ¬ ((fun (e : (LLM.Prompt × LLM.Prompt) × String) =>
          decide (e.1 = k)) e = true) :=
      fun e he => hall e (List.drop_subset _ c he)
    have hany : (c.drop (LLM.CACHE_MAX_SIZE / 5)).any
        (fun e => decide (e.1 = k)) = false := by
      rw [← Bool.not_eq_true, List.any_eq_true]
      rintro ⟨e, he, hpe⟩
      exact hall₂ e he hpe
    simp only [hfull, if_true, hany, Bool.false_eq_true, if_false]
    unfold LLM.cacheLookup
    rw [find?_append_singleton _ _ _ hall₂ (by simp)]
    rfl
  · have hany : c.any (fun e => decide (e.1 = k)) = false := by
      rw [← Bool.not_eq_true, List.any_eq_true]
      rintro ⟨e, he, hpe⟩
      exact hall e he hpe
    simp only [hfull, if_false, hany, Bool.false_eq_true]
    unfold LLM.cacheLookup
    rw [find?_append_singleton _ _ _ hall (by simp)]
    rfl

/-- Claim C6: two `ask_llm` calls with the same prompts, a cacheable task
class and the cache enabled invoke a provider exactly once in total when the
first candidate succeeds: the first call makes the single provider call and
writes the response through to the cache, and the second call returns the
cached response with zero provider calls. -/
theorem c6_cache_single_provider_invocation :
    ∀ (env : LLM.LLMEnv) (base : List String) (c : LLM.Cache) (modelId : String)
      (sys usr : LLM.Prompt) (taskType p : String) (rest : List String)
      (resp : String),
    LLM.cacheableTasks.contains taskType = true →
    LLM.cacheLookup c (LLM.getCacheKey sys usr) = none →
    LLM.adjustPriority taskType base = p :: rest →
    LLM.knownProviders.contains p = true →
    env.providerResult p = .ok resp →
    (LLM.ask_llm env base c modelId sys usr taskType true).response = .ok resp ∧
    (LLM.ask_llm env base c modelId sys usr taskType true).providerCalls = 1 ∧
    (LLM.ask_llm env base
        (LLM.ask_llm env base c modelId sys usr taskType true).cache
        modelId sys usr taskType true).response = .ok resp ∧
    (LLM.ask_llm env base
        (LLM.ask_llm env base c modelId sys usr taskType true).cache
        modelId sys usr taskType true).providerCalls = 0 := by
  intro env base c modelId sys usr taskType p rest resp hTask hMiss hPrio hKnown hOk
  have hfirst : LLM.ask_llm env base c modelId sys usr taskType true =
      ⟨.ok resp, LLM.cacheStore c (LLM.getCacheKey sys usr) resp, 1⟩ := by
    have hmem : p ∈ LLM.knownProviders := by simpa using hKnown
    unfold LLM.ask_llm
    simp only [hTask, Bool.and_true, Bool.true_and, hMiss, hPrio]
    rw [LLM.askLoop]
    simp [hmem, hOk]
  have hsecond : LLM.ask_llm env base
      (LLM.cacheStore c (LLM.getCacheKey sys usr) resp)
      modelId sys usr taskType true =
      ⟨.ok resp, LLM.cacheStore c (LLM.getCacheKey sys usr) resp, 0⟩ := by
    unfold LLM.ask_llm
    simp only [hTask, Bool.and_true, Bool.true_and,
      cacheLookup_cacheStore_self c _ resp hMiss]
    simp
  rw [hfirst]
  exact ⟨rfl, rfl, by rw [hsecond], by rw [hsecond]⟩

/-- Claim C6 witness: a single provider `"gemini"` answering `"R"` on an
empty cache. -/
theorem c6_cache_single_provider_witness :
    (LLM.ask_llm llmEnvOk ["gemini"] [] "m" ['a'] ['u'] "verification" true).response
      = .ok "R" ∧
    (LLM.ask_llm llmEnvOk ["gemini"] [] "m" ['a'] ['u'] "verification"
      true).providerCalls = 1 ∧
    (LLM.ask_llm llmEnvOk ["gemini"]
      (LLM.ask_llm llmEnvOk ["gemini"] [] "m" ['a'] ['u'] "verification" true).cache
      "m" ['a'] ['u'] "verification" true).providerCalls = 0 :=
  ⟨(c6_cache_single_provider_invocation llmEnvOk ["gemini"] [] "m" ['a'] ['u']
      "verification" "gemini" [] "R" (by decide) (by decide) (by decide)
      (by decide) rfl).1,
   (c6_cache_single_provider_invocation llmEnvOk ["gemini"] [] "m" ['a'] ['u']
      "verification" "gemini" [] "R" (by decide) (by decide) (by decide)
      (by decide) rfl).2.1,
   (c6_cache_single_provider_invocation llmEnvOk ["gemini"] [] "m" ['a'] ['u']
      "verification" "gemini" [] "R" (by decide) (by decide) (by decide)
      (by decide) rfl).2.2.2⟩

/-- Claim C9: the cache key depends only on the first 200 characters of each
prompt, so two distinct prompt pairs (`sysA` and `sysB` differ exactly at
character 201) collide: the second call returns the first call's cached
response with zero provider calls. -/
theorem c9_truncated_cache_key_collision :
    sysA ≠ sysB ∧
    (LLM.ask_llm llmEnvOk ["gemini"] [] "m" sysA ['u'] "verification"
      true).providerCalls = 1 ∧
    (LLM.ask_llm llmEnvOk ["gemini"]
        (LLM.ask_llm llmEnvOk ["gemini"] [] "m" sysA ['u'] "verification" true).cache
        "m" sysB ['u'] "verification" true).providerCalls = 0 ∧
    (LLM.ask_llm llmEnvOk ["gemini"]
        (LLM.ask_llm llmEnvOk ["gemini"] [] "m" sysA ['u'] "verification" true).cache
        "m" sysB ['u'] "verification" true).response =
      (LLM.ask_llm llmEnvOk ["gemini"] [] "m" sysA ['u'] "verification"
        true).response := by
  set_option maxRecDepth 4000 in decide

end DirGen
